import Mathlib

-- Verification of the osc-ringcon core against its specification.
--
-- Shallow embedding conventions:
-- * u8 values are modelled as ℕ (with the relevant bounds carried in the
--   claims); u8 subtraction appears only where the source guarantees the
--   minuend is at least the subtrahend, where it coincides with truncated
--   ℕ subtraction.
-- * f32 values are modelled as exact rationals (ℚ).  Every concrete value
--   exercised by a claim is a small dyadic rational on which binary32
--   arithmetic is exact, so the rational model agrees with the f32
--   computation at those points.  Division by zero yields 0 in ℚ, whereas
--   the f32 source computes an infinity (nonzero over zero) or NaN
--   (0.0/0.0, reached when in_center coincides with an in_range endpoint
--   while out_range is degenerate); likewise ℚ has no overflow, whereas
--   f32 overflows to an infinity for out_range endpoints near 2^128.
--   The one universally quantified value claim, C4, therefore carries
--   hypotheses that exclude every configuration on which these divergences
--   could change its conclusion: the NaN configurations are excluded
--   outright, the overflow ones by a 2^126 magnitude bound, and on what
--   remains the f32 result is finite or an infinity that only ever feeds
--   clamp, whose output lies in the bounds for any argument, so the
--   rational proof does not lean on the division-by-zero collapse.
-- * Fallible operations return Option: none models a runtime panic
--   (index out of bounds) or, for the sub-command loop, a trace that ended
--   before the loop returned.
-- * The 362-byte device report is modelled as a total function Fin 362 → ℕ.

set_option maxHeartbeats 1000000

namespace OscRingcon

-- ---------------------------------------------------------------------------
-- IEEE-754 binary32 big-endian serialization (f32::to_be_bytes), modelled
-- from ℚ.  Only the structure (4 bytes) and the value 0 are exercised by the
-- claims; the definition nevertheless implements round-to-nearest-even.
-- ---------------------------------------------------------------------------

/-- Number of binary digits of a natural number, fuel-based so that the
kernel can evaluate it. -/
def bitLenAux : ℕ → ℕ → ℕ
  | 0, _ => 0
  | fuel + 1, n => if n = 0 then 0 else bitLenAux fuel (n / 2) + 1

def bitLen (n : ℕ) : ℕ := bitLenAux n n

/-- Round to nearest integer, ties to even. -/
def rne (q : ℚ) : ℤ :=
  let f := ⌊q⌋
  let r := q - f
  if r < 1 / 2 then f
  else if 1 / 2 < r then f + 1
  else if f % 2 = 0 then f else f + 1

/-- The 32 bits of the binary32 representation of a rational, as a natural
number below 2 ^ 32. -/
def f32bits (q : ℚ) : ℕ :=
  if q = 0 then 0
  else
    let s : ℕ := if q < 0 then 2 ^ 31 else 0
    let a := |q|
    let l : ℤ := (bitLen a.num.natAbs : ℤ) - (bitLen a.den : ℤ)
    let e : ℤ := if (2 : ℚ) ^ l ≤ a then l else l - 1
    if e < -126 then
      s + (rne (a * 2 ^ (149 : ℕ))).toNat
    else
      let m : ℤ := rne (a * (2 : ℚ) ^ (23 - e))
      let em : ℤ × ℤ := if m = 2 ^ 24 then (e + 1, 2 ^ 23) else (e, m)
      if 127 < em.1 then s + 0x7f800000
      else s + (em.1 + 127).toNat * 2 ^ 23 + (em.2 - 2 ^ 23).toNat

/-- Big-endian byte decomposition of a 32-bit word. -/
def toBeBytes (b : ℕ) : List ℕ :=
  [b / 2 ^ 24 % 256, b / 2 ^ 16 % 256, b / 2 ^ 8 % 256, b % 256]

/-- f32::to_be_bytes, composed on the rational model. -/
def f32beBytes (q : ℚ) : List ℕ := toBeBytes (f32bits q)

-- ---------------------------------------------------------------------------
-- src/messages.rs
-- ---------------------------------------------------------------------------

/-- The InitializationStep enumeration, declaration order as in the source
(Configuring = 0, then implicit increments). -/
inductive InitializationStep where
  | Configuring
  | McuState
  | McuConfiguration0
  | McuConfiguration1
  | Step4
  | Step5
  | Step6
  | Step7
deriving DecidableEq, BEq, Repr

/-- The numeric discriminant Rust assigns to each variant (Configuring = 0,
successors increment). -/
def InitializationStep.discriminant : InitializationStep → ℕ
  | .Configuring => 0
  | .McuState => 1
  | .McuConfiguration0 => 2
  | .McuConfiguration1 => 3
  | .Step4 => 4
  | .Step5 => 5
  | .Step6 => 6
  | .Step7 => 7

/-- The Status enumeration from src/messages.rs. -/
inductive Status where
  | NotConnected
  | Initializing (step : InitializationStep)
  | NoRingCon
  | Active (flex : ℕ)
  | Disconnected
deriving DecidableEq, BEq, Repr

/-- The Configuration struct from src/messages.rs.  The SocketAddr is
modelled opaquely as ℕ; osc_address is the UTF-8 byte list of the String;
the two RangeInclusive fields are flattened into start/end pairs. -/
structure Configuration where
  udp_address : ℕ
  osc_address : List ℕ
  in_range_start : ℕ
  in_range_end : ℕ
  in_center : ℕ
  out_range_start : ℚ
  out_range_end : ℚ
  out_idle : ℚ
deriving DecidableEq, Repr

-- ---------------------------------------------------------------------------
-- src/joycon.rs: OscOut (telemetry encoder)
-- ---------------------------------------------------------------------------

/-- f32::clamp as used in OscOut::send (the source guarantees the bounds are
ordered, since configure normalizes them with min/max). -/
def qclamp (x lo hi : ℚ) : ℚ :=
  if x < lo then lo else if hi < x then hi else x

/-- The OscOut struct (the UdpSocket handle is omitted; target is the opaque
address). -/
structure OscOut where
  target : ℕ
  buffer : List ℕ
  mid_in : ℕ
  mid_out : ℚ
  factor_low : ℚ
  factor_high : ℚ
  range_out_start : ℚ
  range_out_end : ℚ
  idle_out : ℚ
deriving DecidableEq, Repr

/-- OscOut::new. -/
def OscOut.new : OscOut :=
  { target := 0
    buffer := []
    mid_in := 0
    mid_out := 3 / 4          -- 0.75
    factor_low := 0
    factor_high := 0
    range_out_start := 1 / 2  -- range_out: 0.5..=1.0
    range_out_end := 1
    idle_out := 0 }

/-- OscOut::configure.  The buffer is the NUL-terminated address padded with
`((len - 1 + 4) & !3) - len` zero bytes — masking with !3 rounds down to a
multiple of 4, written here as `/ 4 * 4` — followed by the eight type-tag
bytes 0x2C 0x66 (",f") and six zeros.  The source takes the pad bytes by
slicing a three-element array, which requires align ≤ 3 (a fact proved in
the C3 theorem below) and then equals replicate align 0.
Caveat on the factor fields: the divisors are u8 differences, and when
in_center equals the corresponding in_range endpoint the source divides by
0.0 in f32, producing an infinity (half_out nonzero) or NaN (half_out zero),
while this ℚ model yields 0.  The C4 theorem excludes by hypothesis every
configuration on which that divergence could affect its conclusion; no
other claim evaluates these fields at a zero divisor. -/
def OscOut.configure (self : OscOut) (config : Configuration) : OscOut :=
  let buffer0 := config.osc_address ++ [0]
  let align := (buffer0.length - 1 + 4) / 4 * 4 - buffer0.length
  let buffer := buffer0 ++ List.replicate align 0 ++ [0x2c, 0x66, 0, 0, 0, 0, 0, 0]
  let half_out := (config.out_range_end - config.out_range_start) / 2
  { target := config.udp_address
    buffer := buffer
    mid_in := config.in_center
    mid_out := config.out_range_start + half_out
    factor_low := half_out / ((config.in_range_end - config.in_center : ℕ) : ℚ)
    factor_high := -half_out / ((config.in_center - config.in_range_start : ℕ) : ℚ)
    range_out_start := min config.out_range_start config.out_range_end
    range_out_end := max config.out_range_start config.out_range_end
    idle_out := config.out_idle }

/-- The output value computed inside OscOut::send (the local fflex). -/
def OscOut.sendValue (self : OscOut) (flex : ℕ) : ℚ :=
  if flex = 0 then self.idle_out
  else if flex = self.mid_in then self.mid_out
  else if flex < self.mid_in then
    qclamp (self.mid_out + ((self.mid_in - flex : ℕ) : ℚ) * self.factor_low)
      self.range_out_start self.range_out_end
  else
    qclamp (self.mid_out + ((flex - self.mid_in : ℕ) : ℚ) * self.factor_high)
      self.range_out_start self.range_out_end

/-- OscOut::send: no-op when unconfigured (empty buffer); otherwise the last
four buffer bytes are overwritten with the big-endian f32 and the whole
buffer is transmitted.  Returns the updated state and the datagram sent, if
any. -/
def OscOut.send (self : OscOut) (flex : ℕ) : OscOut × Option (List ℕ) :=
  if self.buffer = [] then (self, none)
  else
    let fflex := self.sendValue flex
    let buffer := self.buffer.take (self.buffer.length - 4) ++ f32beBytes fflex
    ({ self with buffer := buffer }, some buffer)

/-- The configuration of spec Scenario A: in_center 15, in_range 7..=24,
out_range 0.5..=1.0, out_idle 0.0 (rationals written as fractions). -/
def cfgA : Configuration :=
  { udp_address := 0
    osc_address := [47, 97]   -- "/a"
    in_range_start := 7
    in_range_end := 24
    in_center := 15
    out_range_start := 1 / 2
    out_range_end := 1
    out_idle := 0 }

-- ---------------------------------------------------------------------------
-- src/joycon.rs: repeat_sub_command and the initialization stages
-- ---------------------------------------------------------------------------

/-- JoyConError, with the one variant repeat_sub_command distinguishes
(SubCommandError, carrying the sub-command byte and an ack byte) and all
other errors collapsed into an opaque code. -/
inductive JoyConError where
  | subCommandError (sub : ℕ) (ack : ℕ)
  | otherError (code : ℕ)
deriving DecidableEq, Repr

/-- One attempt of driver.send_sub_command_raw, as seen by
repeat_sub_command: either an error or a checked 362-byte response frame
(blocking mode guarantees SubCommandReply::Checked; the other variant is
unreachable in the source). -/
inductive SendResult where
  | err (e : JoyConError)
  | checked (data : Fin 362 → ℕ)

/-- repeat_sub_command over a trace of send attempts.  none means the trace
ended with the loop still running; some (error e) models an early return
with a non-SubCommandError failure; some (ok v) models the first callback
match.  A SubCommandError result makes the loop continue (resend). -/
def repeatSubCommand {V : Type} (cb : (Fin 362 → ℕ) → Option V) :
    List SendResult → Option (Except JoyConError V)
  | [] => none
  | .err (.subCommandError _ _) :: rest => repeatSubCommand cb rest
  | .err (.otherError c) :: _ => some (.error (.otherError c))
  | .checked data :: rest =>
    match cb data with
    | some v => some (.ok v)
    | none => repeatSubCommand cb rest

/-- The shape of every stage callback in the source: Some(()) when the
response-frame predicate holds, None otherwise. -/
def acceptCb (p : (Fin 362 → ℕ) → Bool) : (Fin 362 → ℕ) → Option Unit :=
  fun data => if p data then some () else none

/-- Predicate of the stage that emits Initializing(McuConfiguration0)
(source: data[0xd] == 0x80 && data[0xe] == 0x22). -/
def mcuConfiguration0Accept (data : Fin 362 → ℕ) : Bool :=
  data 0xd == 0x80 && data 0xe == 0x22

/-- Predicate of the stage that emits Initializing(McuConfiguration1)
(source: data[0] == 0x21 && data[15] == 1 && data[22] == 3). -/
def mcuConfiguration1Accept (data : Fin 362 → ℕ) : Bool :=
  data 0 == 0x21 && data 15 == 1 && data 22 == 3

/-- Predicate of the stage that emits Initializing(McuState)
(source: data[0] == 0x21 && data[15] == 9 && data[17] == 1). -/
def mcuStateAccept (data : Fin 362 → ℕ) : Bool :=
  data 0 == 0x21 && data 15 == 9 && data 17 == 1

/-- Predicate of the Step4 stage (sub-command 0x59). -/
def step4Accept (data : Fin 362 → ℕ) : Bool :=
  data 0 == 0x21 && data 14 == 0x59 && data 16 == 0x20

/-- Predicate of the Step5 stage (sub-command 0x5c). -/
def step5Accept (data : Fin 362 → ℕ) : Bool :=
  data 0 == 0x21 && data 14 == 0x5c

/-- Predicate of the Step6 stage (sub-command 0x5a). -/
def step6Accept (data : Fin 362 → ℕ) : Bool :=
  data 0 == 0x21 && data 14 == 0x5a

/-- Predicate of the Step7 stage (sub-command 0x58). -/
def step7Accept (data : Fin 362 → ℕ) : Bool :=
  data 0 == 0x21 && data 14 == 0x58

/-- One repeat_sub_command stage of joycon_main: the status label emitted
just before it, the fixed payload sent, and the response predicate. -/
structure StageSpec where
  step : InitializationStep
  payload : List ℕ
  accept : (Fin 362 → ℕ) → Bool

/-- The repeat_sub_command stages of joycon_main, in source order.  Note the
status labels: the stage labelled McuConfiguration0 checks bytes 13/14, and
the byte-0/15/22 check belongs to the stage labelled McuConfiguration1. -/
def repeatStages : List StageSpec :=
  [ ⟨.McuConfiguration0, [0x01], mcuConfiguration0Accept⟩,
    ⟨.McuConfiguration1,
      [0x21, 0x00, 0x03, 0, 0, 0, 0, 0, 0, 0, 0, 0, 0, 0, 0, 0, 0, 0, 0, 0,
        0, 0, 0, 0, 0, 0, 0, 0, 0, 0, 0, 0, 0, 0, 0, 0, 0, 0xfa],
      mcuConfiguration1Accept⟩,
    ⟨.McuState,
      [0x21, 0x01, 0x01, 0, 0, 0, 0, 0, 0, 0, 0, 0, 0, 0, 0, 0, 0, 0, 0, 0,
        0, 0, 0, 0, 0, 0, 0, 0, 0, 0, 0, 0, 0, 0, 0, 0, 0, 0xf3],
      mcuStateAccept⟩,
    ⟨.Step4, [], step4Accept⟩,
    ⟨.Step5,
      [0x06, 0x03, 0x25, 0x06, 0x00, 0x00, 0x00, 0x00, 0x1c, 0x16, 0xed,
        0x34, 0x36, 0x00, 0x00, 0x00, 0x0a, 0x64, 0x0b, 0xe6, 0xa9, 0x22,
        0x00, 0x00, 0x04, 0x00, 0x00, 0x00, 0x00, 0x00, 0x00, 0x00, 0x90,
        0xa8, 0xe1, 0x34, 0x36],
      step5Accept⟩,
    ⟨.Step6, [0x04, 0x01, 0x01, 0x02], step6Accept⟩,
    ⟨.Step7, [0x04, 0x04, 0x12, 0x02], step7Accept⟩ ]

/-- The response predicate of the stage carrying a given status label, read
off the stage table. -/
def stageAccept (step : InitializationStep) : Option ((Fin 362 → ℕ) → Bool) :=
  (repeatStages.find? (fun sp => sp.step == step)).map StageSpec.accept

/-- Statuses emitted while running a list of stages against per-stage
send-attempt traces: each stage emits its Initializing status, then runs
repeat_sub_command; if the loop does not return ok the engine emits nothing
further. -/
def runStages : List (StageSpec × List SendResult) → List Status
  | [] => []
  | (sp, ev) :: rest =>
    Status.Initializing sp.step ::
      match repeatSubCommand (acceptCb sp.accept) ev with
      | some (.ok _) => runStages rest
      | _ => []

/-- The Status values emitted by joycon_main for one device, from the
NotConnected at engine start through the initialization handshake, given
per-stage environments. -/
def initTrace (envs : List (List SendResult)) : List Status :=
  Status.NotConnected ::
    Status.Initializing InitializationStep.Configuring ::
      runStages (repeatStages.zip envs)

-- ---------------------------------------------------------------------------
-- src/joycon.rs: steady-state read loop
-- ---------------------------------------------------------------------------

/-- The frame validity check and sensor-byte extraction of the read loop,
on the slice data = buf[..len].  The outer none models an index-out-of-bounds
panic (data[0] on an empty slice, or data[40] when the frame passed the
length check); some none models a discarded frame (the continue branch);
some (some flex) is a frame whose sensor byte was extracted.  The source
evaluates data[0] before the length test (short-circuit ||). -/
def readFrameCheck (data : List ℕ) : Option (Option ℕ) :=
  match data[0]? with
  | none => none
  | some b0 =>
    if b0 ≠ 0x30 ∨ data.length < 40 then some none
    else
      match data[40]? with
      | none => none
      | some flex => some (some flex)

/-- The debounce test of the read loop: skip when the previous acted-on
reading had the same value and less than MAX_INTERVAL = 1 second has
elapsed.  Timestamps are rationals (seconds); now - t is
now.duration_since(t) on a monotonic clock. -/
def shouldSkip : Option (ℕ × ℚ) → ℕ → ℚ → Bool
  | some (f, t), flex, now => f == flex && decide (now - t < 1)
  | none, _, _ => false

/-- State carried across read-loop iterations: the encoder, the queue of
pending Configuration updates (config.try_recv() pops its head), and
last_update. -/
structure ReadLoopState where
  osc : OscOut
  pending : List Configuration
  lastUpdate : Option (ℕ × ℚ)
deriving Repr

/-- Result of one read-loop iteration: the new state, the UDP datagrams
transmitted, and the Status values emitted. -/
structure ReadStepOut where
  state : ReadLoopState
  packets : List (List ℕ)
  statuses : List Status
deriving Repr

/-- One iteration of the read loop on a valid frame with sensor byte flex at
time now: skip (continue) when the debounce test holds, otherwise record
last_update, drain at most one pending Configuration into the encoder, send
the packet, and emit NoRingCon (flex == 0) or Active(flex). -/
def readStep (st : ReadLoopState) (flex : ℕ) (now : ℚ) : ReadStepOut :=
  if shouldSkip st.lastUpdate flex now then ⟨st, [], []⟩
  else
    let lastUpdate := some (flex, now)
    let oscPending :=
      match st.pending with
      | c :: rest => (OscOut.configure st.osc c, rest)
      | [] => (st.osc, ([] : List Configuration))
    let sendOut := oscPending.1.send flex
    ⟨⟨sendOut.1, oscPending.2, lastUpdate⟩, sendOut.2.toList,
      [if flex = 0 then Status.NoRingCon else Status.Active flex]⟩

/-- The read loop over a list of (sensor byte, arrival time) readings,
collecting transmitted datagrams and emitted statuses. -/
def readTrace (st : ReadLoopState) :
    List (ℕ × ℚ) → ReadLoopState × List (List ℕ) × List Status
  | [] => (st, [], [])
  | (flex, now) :: rest =>
    let o := readStep st flex now
    let r := readTrace o.state rest
    (r.1, o.packets ++ r.2.1, o.statuses ++ r.2.2)

-- ---------------------------------------------------------------------------
-- src/agent.rs: the supervisor (spawn / manage)
-- ---------------------------------------------------------------------------

/-- One event observed by the tokio::select! loop of manage, linearized:
a Configuration from the owner together with whether forwarding it to the
worker succeeds; closure of the owner sink; a Status received from the worker
together with whether forwarding it to the owner succeeds; a receive failure
on the status stream; closure of the status stream; worker-process
termination. -/
inductive MEvent where
  | cfg (c : Configuration) (sendOk : Bool)
  | cfgClosed
  | statusMsg (s : Status) (fwdOk : Bool)
  | statusRecvErr
  | statusClosed
  | childExit
deriving DecidableEq, Repr

/-- How manage ended: Ok(()) (clean stop of the supervisor), an error
(worker generation unusable), or still inside the loop when the event trace
ended. -/
inductive MOutcome where
  | ok
  | err
  | running
deriving DecidableEq, Repr

/-- The observable state of one manage invocation: the shared last_config
slot, the Configurations sent to the worker, and the Statuses forwarded to
the owner. -/
structure MState where
  last : Option Configuration
  toWorker : List Configuration
  toOwner : List Status
deriving DecidableEq, Repr

/-- One select! arm of manage.  On a new owner Configuration, last_config is
overwritten before the forward attempt (source order: *last_config =
Some(config.clone()); config_tx.send(config)?). -/
def manageStep (st : MState) : MEvent → MState × Option MOutcome
  | .cfg c sendOk =>
    let st1 : MState := { st with last := some c }
    if sendOk then ({ st1 with toWorker := st1.toWorker ++ [c] }, none)
    else (st1, some .err)
  | .cfgClosed => (st, some .ok)
  | .statusMsg s fwdOk =>
    if fwdOk then ({ st with toOwner := st.toOwner ++ [s] }, none)
    else (st, some .err)
  | .statusRecvErr => (st, some .err)
  | .statusClosed => (st, some .err)
  | .childExit => (st, some .err)

/-- The manage loop over an event trace. -/
def manageRun (st : MState) : List MEvent → MState × MOutcome
  | [] => (st, .running)
  | e :: rest =>
    match (manageStep st e).2 with
    | none => manageRun (manageStep st e).1 rest
    | some o => ((manageStep st e).1, o)

/-- manage: if a previous Configuration exists it is first resent to the new
worker (replayOk says whether that initial config_tx.send succeeds; on
failure manage returns the error before entering the loop), then the loop
runs. -/
def manage (last0 : Option Configuration) (replayOk : Bool)
    (events : List MEvent) : MState × MOutcome :=
  match last0, replayOk with
  | some c, true => manageRun ⟨some c, [c], []⟩ events
  | some c, false => (⟨some c, [], []⟩, .err)
  | none, _ => manageRun ⟨none, [], []⟩ events

/-- The outcome an event forces, independent of state (read off
manageStep). -/
def outcomeOf : MEvent → Option MOutcome
  | .cfg _ sendOk => if sendOk then none else some .err
  | .cfgClosed => some .ok
  | .statusMsg _ fwdOk => if fwdOk then none else some .err
  | .statusRecvErr => some .err
  | .statusClosed => some .err
  | .childExit => some .err

/-- The first terminating outcome in an event trace, running if none. -/
def firstOutcome : List MEvent → MOutcome
  | [] => .running
  | e :: rest =>
    match outcomeOf e with
    | some o => o
    | none => firstOutcome rest

/-- The spawn loop of the supervisor task: each generation is described by
whether the initial replay send would succeed and by its event trace.  On a
clean manage return the loop breaks; on an error it respawns with the
last_config produced by the dead generation.  Returns the number of worker
generations started and the final last_config. -/
def spawnLoop (last0 : Option Configuration) :
    List (Bool × List MEvent) → ℕ × Option Configuration
  | [] => (0, last0)
  | (rOk, evs) :: gens =>
    match (manage last0 rOk evs).2 with
    | .err =>
      ((spawnLoop (manage last0 rOk evs).1.last gens).1 + 1,
        (spawnLoop (manage last0 rOk evs).1.last gens).2)
    | _ => (1, (manage last0 rOk evs).1.last)

-- ---------------------------------------------------------------------------
-- Concrete frames and packets used by individual claims
-- ---------------------------------------------------------------------------

/-- Modelled from the claim wording of C3, for refinement comparison: the
packet the claim describes — address bytes, 0x00 terminator, zero padding to
a 4-byte boundary, the characters ',' 'f' followed by six 0x00 bytes,
followed by the 4-byte big-endian float. -/
def claimPacketC3 (cfg : Configuration) (v : ℚ) : List ℕ :=
  cfg.osc_address ++ [0]
    ++ List.replicate ((4 - (cfg.osc_address.length + 1) % 4) % 4) 0
    ++ [0x2c, 0x66, 0, 0, 0, 0, 0, 0] ++ f32beBytes v

/-- A response frame with byte 0 = 0x21, byte 15 = 1, byte 22 = 3 and zeros
elsewhere (in particular byte 13 = 0). -/
def dC5 : Fin 362 → ℕ := fun i =>
  if i.val = 0 then 0x21 else if i.val = 15 then 1 else if i.val = 22 then 3 else 0

/-- A frame every stage predicate rejects. -/
def dZero : Fin 362 → ℕ := fun _ => 0

/-- A frame the McuState-stage predicate accepts. -/
def mcuStateFrame : Fin 362 → ℕ := fun i =>
  if i.val = 0 then 0x21 else if i.val = 15 then 9 else if i.val = 17 then 1 else 0

/-- A frame the McuConfiguration0-stage predicate accepts (bytes 13/14 are
0x80/0x22). -/
def mcuConf0Frame : Fin 362 → ℕ := fun i =>
  if i.val = 13 then 0x80 else if i.val = 14 then 0x22 else 0

/-- A frame the Step4-stage predicate accepts. -/
def step4Frame : Fin 362 → ℕ := fun i =>
  if i.val = 0 then 0x21 else if i.val = 14 then 0x59 else if i.val = 16 then 0x20 else 0

/-- A frame the Step5-stage predicate accepts. -/
def step5Frame : Fin 362 → ℕ := fun i =>
  if i.val = 0 then 0x21 else if i.val = 14 then 0x5c else 0

/-- A frame the Step6-stage predicate accepts. -/
def step6Frame : Fin 362 → ℕ := fun i =>
  if i.val = 0 then 0x21 else if i.val = 14 then 0x5a else 0

/-- A frame the Step7-stage predicate accepts. -/
def step7Frame : Fin 362 → ℕ := fun i =>
  if i.val = 0 then 0x21 else if i.val = 14 then 0x58 else 0

/-- A read-loop state whose last acted-on reading is value 5 at time 0, with
an unconfigured encoder and no pending configuration. -/
def stB : ReadLoopState := ⟨OscOut.new, [], some (5, 0)⟩

/-- A read-loop state whose last acted-on reading is value 7 at time 0. -/
def stB2 : ReadLoopState := ⟨OscOut.new, [], some (7, 0)⟩

-- ---------------------------------------------------------------------------
-- Helper lemmas
-- ---------------------------------------------------------------------------

/-- Any number of device rejections (SubCommandError) are retried away
without affecting the rest of the loop. -/
theorem repeatSubCommand_replicate_rejected {V : Type}
    (cb : (Fin 362 → ℕ) → Option V) (a b : ℕ) (n : ℕ) (rest : List SendResult) :
    repeatSubCommand cb
        (List.replicate n (SendResult.err (JoyConError.subCommandError a b)) ++ rest)
      = repeatSubCommand cb rest := by
  induction n with
  | zero => rfl
  | succ n ih => simpa [List.replicate_succ, repeatSubCommand] using ih

-- ---------------------------------------------------------------------------
-- Claim C1 (corrected)
-- ---------------------------------------------------------------------------

/-- Claim C1 counterexample: with Scenario A's configuration, send(24) does
not compute 1.0.  (flex = 24 is above in_center = 15, so the high branch
applies: 0.75 + 9 * (-0.25 / 8) = 0.46875, which clamps to the lower bound
0.5, not to 1.0.) -/
theorem C1_counterexample :
    (OscOut.configure OscOut.new cfgA).sendValue 24 ≠ 1 := by
  norm_num [OscOut.configure, OscOut.sendValue, OscOut.new, cfgA, qclamp]

/-- Claim C1 (amended): for the Configuration with in_center=15,
in_range=7..=24, out_range=0.5..=1.0, out_idle=0.0, after configure,
send(15) computes and transmits 0.75, send(0) computes 0.0, and send(24)
computes an output clamped to 0.5, the lower bound of the normalized
out_range. -/
theorem C1_theorem :
    (OscOut.configure OscOut.new cfgA).sendValue 15 = 3 / 4
    ∧ ((OscOut.configure OscOut.new cfgA).send 15).2.isSome = true
    ∧ (OscOut.configure OscOut.new cfgA).sendValue 0 = 0
    ∧ (OscOut.configure OscOut.new cfgA).sendValue 24 = 1 / 2 := by
  refine ⟨?_, ?_, ?_, ?_⟩ <;>
    simp [OscOut.configure, OscOut.sendValue, OscOut.send, OscOut.new,
      cfgA, qclamp] <;> norm_num

-- ---------------------------------------------------------------------------
-- Claim C2 (code_bug)
-- ---------------------------------------------------------------------------

/-- Claim C2 evaluation: a frame of length exactly 40 whose first byte is
0x30 passes the validity check (40 < 40 is false) and then the read loop
indexes data[40] out of bounds (modelled as none = panic); the empty frame
panics already at data[0].  A length-39 frame and a wrong-tag frame are
discarded as the claim says, and a length-41 frame has its sensor byte
extracted in bounds. -/
theorem C2_theorem :
    readFrameCheck (0x30 :: List.replicate 39 0) = none
    ∧ readFrameCheck [] = none
    ∧ readFrameCheck (0x30 :: List.replicate 38 0) = some none
    ∧ readFrameCheck (0x31 :: List.replicate 41 0) = some none
    ∧ readFrameCheck (0x30 :: List.replicate 40 7) = some (some 7) := by
  decide

-- ---------------------------------------------------------------------------
-- Claim C3 (corrected)
-- ---------------------------------------------------------------------------

/-- Claim C3 counterexample: for the Scenario A configuration (address
"/a") and flex = 0 (output 0.0), the datagram actually transmitted is the
12-byte "/a\0\0,f\0\0" plus four zero float bytes overwriting the final
four tag-block bytes — not the 16-byte packet the claim describes in which
the float follows six 0x00 tag bytes. -/
theorem C3_counterexample :
    ((OscOut.configure OscOut.new cfgA).send 0).2
      = some [47, 97, 0, 0, 0x2c, 0x66, 0, 0, 0, 0, 0, 0]
    ∧ ((OscOut.configure OscOut.new cfgA).send 0).2
      ≠ some (claimPacketC3 cfgA ((OscOut.configure OscOut.new cfgA).sendValue 0)) := by
  constructor <;>
    simp [OscOut.configure, OscOut.send, OscOut.sendValue, OscOut.new, cfgA,
      claimPacketC3, f32beBytes, f32bits, toBeBytes, List.take]

/-- Claim C3 (amended): for every Configuration and flex byte, the
transmitted datagram is the osc_address bytes, a 0x00 terminator, zero
padding to a 4-byte boundary, then ',' 'f' 0x00 0x00 — the first four bytes
of the 8-byte type-tag block — followed by the 4-byte big-endian IEEE-754
encoding of the computed output value, which overwrites the last four bytes
of that block.  The full 8-byte suffix ",f" + six 0x00 is present in the
buffer as configure builds it, before a send overwrites its tail. -/
theorem C3_theorem (cfg : Configuration) (flex : ℕ) :
    ∃ pad : ℕ, pad ≤ 3
    ∧ (cfg.osc_address.length + 1 + pad) % 4 = 0
    ∧ (OscOut.configure OscOut.new cfg).buffer
      = cfg.osc_address ++ [0] ++ List.replicate pad 0
        ++ [0x2c, 0x66, 0, 0, 0, 0, 0, 0]
    ∧ ((OscOut.configure OscOut.new cfg).send flex).2
      = some (cfg.osc_address ++ [0] ++ List.replicate pad 0 ++ [0x2c, 0x66, 0, 0]
          ++ f32beBytes ((OscOut.configure OscOut.new cfg).sendValue flex))
    ∧ (f32beBytes ((OscOut.configure OscOut.new cfg).sendValue flex)).length = 4 := by
  refine ⟨(cfg.osc_address.length + 4) / 4 * 4 - (cfg.osc_address.length + 1),
    ?_, ?_, ?_, ?_, rfl⟩
  · omega
  · omega
  · simp [OscOut.configure]
  · have hbuf : (OscOut.configure OscOut.new cfg).buffer
        = (cfg.osc_address ++ [0]
            ++ List.replicate
              ((cfg.osc_address.length + 4) / 4 * 4 - (cfg.osc_address.length + 1)) 0
            ++ [0x2c, 0x66, 0, 0]) ++ [0, 0, 0, 0] := by
      simp [OscOut.configure]
    have hne : (OscOut.configure OscOut.new cfg).buffer ≠ [] := by
      rw [hbuf]; simp
    rw [OscOut.send, if_neg hne]
    simp only [Option.some.injEq]
    rw [hbuf, List.length_append]
    simp only [List.length_cons, List.length_nil]
    rw [Nat.add_sub_cancel, List.take_left]

/-- Claim C3 witness: the amended packet layout at the Scenario A
configuration and flex = 15. -/
theorem C3_witness :
    ∃ pad : ℕ, pad ≤ 3
    ∧ (cfgA.osc_address.length + 1 + pad) % 4 = 0
    ∧ (OscOut.configure OscOut.new cfgA).buffer
      = cfgA.osc_address ++ [0] ++ List.replicate pad 0
        ++ [0x2c, 0x66, 0, 0, 0, 0, 0, 0]
    ∧ ((OscOut.configure OscOut.new cfgA).send 15).2
      = some (cfgA.osc_address ++ [0] ++ List.replicate pad 0 ++ [0x2c, 0x66, 0, 0]
          ++ f32beBytes ((OscOut.configure OscOut.new cfgA).sendValue 15))
    ∧ (f32beBytes ((OscOut.configure OscOut.new cfgA).sendValue 15)).length = 4 :=
  C3_theorem cfgA 15

-- ---------------------------------------------------------------------------
-- Claim C4 (corrected)
-- ---------------------------------------------------------------------------

/-- Claim C4 counterexample: with the Scenario A configuration (whose
in_center 15 lies in in_range [7, 24]) and the byte input flex = 0, the
computed output is out_idle = 0.0, which lies below the normalized out_range
lower bound 0.5 — the flex = 0 reading bypasses the clamped mapping. -/
theorem C4_counterexample :
    ¬ ((OscOut.configure OscOut.new cfgA).range_out_start
        ≤ (OscOut.configure OscOut.new cfgA).sendValue 0) := by
  simp [OscOut.configure, OscOut.sendValue, OscOut.new, cfgA]

/-- min lo hi ≤ midpoint ≤ max lo hi, over ℚ. -/
theorem mid_between (lo hi : ℚ) :
    min lo hi ≤ lo + (hi - lo) / 2 ∧ lo + (hi - lo) / 2 ≤ max lo hi := by
  rcases le_total lo hi with h | h <;>
    constructor <;> simp [min_def, max_def, h] <;> linarith

/-- The clamped value stays inside ordered bounds. -/
theorem qclamp_mem (x lo hi : ℚ) (h : lo ≤ hi) :
    lo ≤ qclamp x lo hi ∧ qclamp x lo hi ≤ hi := by
  unfold qclamp
  split_ifs with h1 h2 <;> constructor <;> linarith

/-- Claim C4 (amended): for every Configuration with in_center inside
in_range and every byte input flex with 1 ≤ flex ≤ 255 (the raw reading 0
instead yields out_idle, which may lie outside the range), the output value
computed by send after configure lies within the normalized inclusive
bounds of out_range, and whenever flex equals in_center the output equals
mid_out.
Hypotheses h5 and h6 exclude the configurations on which the f32 source
computes 0.0/0.0 = NaN for factor_low or factor_high (in_center at the
corresponding in_range endpoint with a degenerate out_range): there the
program emits NaN, which clamp propagates, and the in-range conclusion is
false in the program.  Hypotheses h7 and h8 bound the out_range endpoints
by 2^126 so that no f32 intermediate of half_out, mid_out or the factors
overflows (an out_range spanning beyond 2^127 makes the program compute
mid_out = inf, again outside the bounds at flex = in_center).  On the
domain these hypotheses carve out, every f32 value entering an unclamped
branch is finite, any infinity arising from a zero divisor (in_center at
an endpoint, out_range nondegenerate) or from 255 * factor feeds only
clamp — whose result lies in the bounds for every argument, exactly as in
this rational model — so the conclusion does not rest on ℚ mapping
division by zero to 0. -/
theorem C4_theorem (cfg : Configuration) (flex : ℕ)
    (h1 : cfg.in_range_start ≤ cfg.in_center)
    (h2 : cfg.in_center ≤ cfg.in_range_end)
    (h3 : 1 ≤ flex) (h4 : flex ≤ 255)
    (h5 : cfg.in_center = cfg.in_range_end →
      cfg.out_range_start ≠ cfg.out_range_end)
    (h6 : cfg.in_center = cfg.in_range_start →
      cfg.out_range_start ≠ cfg.out_range_end)
    (h7 : |cfg.out_range_start| ≤ 2 ^ 126)
    (h8 : |cfg.out_range_end| ≤ 2 ^ 126) :
    ((OscOut.configure OscOut.new cfg).range_out_start
        ≤ (OscOut.configure OscOut.new cfg).sendValue flex
      ∧ (OscOut.configure OscOut.new cfg).sendValue flex
        ≤ (OscOut.configure OscOut.new cfg).range_out_end)
    ∧ (flex = cfg.in_center →
        (OscOut.configure OscOut.new cfg).sendValue flex
          = (OscOut.configure OscOut.new cfg).mid_out) := by
  have hminmax : min cfg.out_range_start cfg.out_range_end
      ≤ max cfg.out_range_start cfg.out_range_end := min_le_max
  have hflex0 : flex ≠ 0 := by omega
  constructor
  · simp only [OscOut.configure, OscOut.sendValue]
    simp only [if_neg hflex0]
    split_ifs with hc hlt
    · exact mid_between cfg.out_range_start cfg.out_range_end
    · exact qclamp_mem _ _ _ hminmax
    · exact qclamp_mem _ _ _ hminmax
  · intro hm
    simp only [OscOut.configure, OscOut.sendValue]
    simp only [if_neg hflex0]
    rw [if_pos hm]

/-- Claim C4 witness: the amended claim at the Scenario A configuration and
flex = 3 (a reading below in_center whose raw mapped value 13/12 exceeds the
range and is clamped).  Scenario A's in_center 15 is strictly inside
in_range [7, 24], its out_range [0.5, 1.0] is nondegenerate and far below
the overflow bound, so every hypothesis is discharged concretely. -/
theorem C4_witness :
    (((OscOut.configure OscOut.new cfgA).range_out_start
        ≤ (OscOut.configure OscOut.new cfgA).sendValue 3
      ∧ (OscOut.configure OscOut.new cfgA).sendValue 3
        ≤ (OscOut.configure OscOut.new cfgA).range_out_end)
    ∧ (3 = cfgA.in_center →
        (OscOut.configure OscOut.new cfgA).sendValue 3
          = (OscOut.configure OscOut.new cfgA).mid_out)) :=
  C4_theorem cfgA 3 (by decide) (by decide) (by decide) (by decide)
    (fun h => absurd h (by decide)) (fun h => absurd h (by decide))
    (by norm_num [cfgA, abs_le]) (by norm_num [cfgA, abs_le])

-- ---------------------------------------------------------------------------
-- Claim C5 (corrected)
-- ---------------------------------------------------------------------------

/-- Claim C5 counterexample: the stage that emits
Initializing(McuConfiguration0) does not accept a response if and only if
bytes 0/15/22 are 0x21/1/3 — this frame satisfies that byte pattern yet is
rejected (the stage actually checks bytes 13/14 for 0x80/0x22). -/
theorem C5_counterexample :
    ¬ (mcuConfiguration0Accept dC5 = true
        ↔ dC5 0 = 0x21 ∧ dC5 15 = 1 ∧ dC5 22 = 3) := by
  decide

/-- Claim C5 (amended): the stage that emits
Initializing(McuConfiguration0) accepts a response iff byte 13 = 0x80 and
byte 14 = 0x22; the byte 0 = 0x21, byte 15 = 1, byte 22 = 3 predicate
belongs to the stage that emits Initializing(McuConfiguration1); the stage
that emits Initializing(McuState) accepts iff byte 0 = 0x21, byte 15 = 9,
byte 17 = 1, as the claim states. -/
theorem C5_theorem (d : Fin 362 → ℕ) :
    stageAccept InitializationStep.McuConfiguration0 = some mcuConfiguration0Accept
    ∧ stageAccept InitializationStep.McuConfiguration1 = some mcuConfiguration1Accept
    ∧ stageAccept InitializationStep.McuState = some mcuStateAccept
    ∧ (mcuConfiguration0Accept d = true ↔ d 13 = 0x80 ∧ d 14 = 0x22)
    ∧ (mcuConfiguration1Accept d = true ↔ d 0 = 0x21 ∧ d 15 = 1 ∧ d 22 = 3)
    ∧ (mcuStateAccept d = true ↔ d 0 = 0x21 ∧ d 15 = 9 ∧ d 17 = 1) := by
  refine ⟨rfl, rfl, rfl, ?_, ?_, ?_⟩ <;>
    simp [mcuConfiguration0Accept, mcuConfiguration1Accept, mcuStateAccept,
      Bool.and_eq_true, beq_iff_eq, and_assoc]

/-- Claim C5 witness: the amended characterization applied to the concrete
frame dC5. -/
theorem C5_witness :
    stageAccept InitializationStep.McuConfiguration0 = some mcuConfiguration0Accept
    ∧ stageAccept InitializationStep.McuConfiguration1 = some mcuConfiguration1Accept
    ∧ stageAccept InitializationStep.McuState = some mcuStateAccept
    ∧ (mcuConfiguration0Accept dC5 = true ↔ dC5 13 = 0x80 ∧ dC5 14 = 0x22)
    ∧ (mcuConfiguration1Accept dC5 = true ↔ dC5 0 = 0x21 ∧ dC5 15 = 1 ∧ dC5 22 = 3)
    ∧ (mcuStateAccept dC5 = true ↔ dC5 0 = 0x21 ∧ dC5 15 = 9 ∧ dC5 17 = 1) :=
  C5_theorem dC5

-- ---------------------------------------------------------------------------
-- Claim C6 (confirmed)
-- ---------------------------------------------------------------------------

/-- Claim C6: in repeat_sub_command, any number of rejected (SubCommandError)
send results are retried without limit and without effect; any other send
error is returned immediately; a response failing the predicate causes a
resend with no other effect; the first response matching the predicate
returns success; and in the three-failures-then-match scenario the loop is
still running after the three failures and returns ok exactly at the match,
so the engine advances Status exactly once, after the match. -/
theorem C6_theorem (V : Type) (cb : (Fin 362 → ℕ) → Option V)
    (rest : List SendResult) (dBad dGood : Fin 362 → ℕ) (a b code : ℕ) (v : V)
    (hBad : cb dBad = none) (hGood : cb dGood = some v) :
    (∀ n, repeatSubCommand cb
        (List.replicate n (SendResult.err (JoyConError.subCommandError a b)) ++ rest)
      = repeatSubCommand cb rest)
    ∧ repeatSubCommand cb (SendResult.err (JoyConError.otherError code) :: rest)
      = some (.error (.otherError code))
    ∧ repeatSubCommand cb (SendResult.checked dBad :: rest)
      = repeatSubCommand cb rest
    ∧ repeatSubCommand cb (SendResult.checked dGood :: rest) = some (.ok v)
    ∧ repeatSubCommand cb (List.replicate 3 (SendResult.checked dBad)) = none
    ∧ repeatSubCommand cb
        (List.replicate 3 (SendResult.checked dBad) ++ [SendResult.checked dGood])
      = some (.ok v) := by
  refine ⟨fun n => repeatSubCommand_replicate_rejected cb a b n rest, ?_, ?_, ?_, ?_, ?_⟩ <;>
    simp [repeatSubCommand, hBad, hGood, List.replicate_succ]

/-- Claim C6 witness: the loop behaviour at the McuState-stage callback with
a concrete rejected trace, a concrete fatal error, three concrete predicate
failures and a concrete match. -/
theorem C6_witness :
    repeatSubCommand (acceptCb mcuStateAccept)
        (List.replicate 5 (SendResult.err (JoyConError.subCommandError 0x21 1)) ++ [])
      = repeatSubCommand (acceptCb mcuStateAccept) []
    ∧ repeatSubCommand (acceptCb mcuStateAccept)
        (SendResult.err (JoyConError.otherError 7) :: [])
      = some (.error (.otherError 7))
    ∧ repeatSubCommand (acceptCb mcuStateAccept) (SendResult.checked dZero :: [])
      = repeatSubCommand (acceptCb mcuStateAccept) []
    ∧ repeatSubCommand (acceptCb mcuStateAccept) (SendResult.checked mcuStateFrame :: [])
      = some (.ok ())
    ∧ repeatSubCommand (acceptCb mcuStateAccept)
        (List.replicate 3 (SendResult.checked dZero)) = none
    ∧ repeatSubCommand (acceptCb mcuStateAccept)
        (List.replicate 3 (SendResult.checked dZero) ++ [SendResult.checked mcuStateFrame])
      = some (.ok ()) := by
  have h := C6_theorem Unit (acceptCb mcuStateAccept) [] dZero mcuStateFrame
    0x21 1 7 () (by rfl) (by rfl)
  exact ⟨h.1 5, h.2.1, h.2.2.1, h.2.2.2.1, h.2.2.2.2.1, h.2.2.2.2.2⟩

-- ---------------------------------------------------------------------------
-- Supervisor lemmas (manage / spawnLoop)
-- ---------------------------------------------------------------------------

/-- The outcome of one manage arm depends only on the event. -/
theorem manageStep_outcome (st : MState) (e : MEvent) :
    (manageStep st e).2 = outcomeOf e := by
  cases e with
  | cfg c sendOk => cases sendOk <;> rfl
  | cfgClosed => rfl
  | statusMsg s fwdOk => cases fwdOk <;> rfl
  | statusRecvErr => rfl
  | statusClosed => rfl
  | childExit => rfl

/-- No event leaves manage with the running pseudo-outcome. -/
theorem outcomeOf_ne_running (e : MEvent) : outcomeOf e ≠ some .running := by
  cases e with
  | cfg c sendOk => cases sendOk <;> simp [outcomeOf]
  | cfgClosed => simp [outcomeOf]
  | statusMsg s fwdOk => cases fwdOk <;> simp [outcomeOf]
  | statusRecvErr => simp [outcomeOf]
  | statusClosed => simp [outcomeOf]
  | childExit => simp [outcomeOf]

/-- The manage loop ends with the first terminating outcome of the trace. -/
theorem manageRun_outcome (evs : List MEvent) (st : MState) :
    (manageRun st evs).2 = firstOutcome evs := by
  induction evs generalizing st with
  | nil => rfl
  | cons e rest ih =>
    simp only [manageRun, firstOutcome, manageStep_outcome]
    cases outcomeOf e with
    | none => exact ih _
    | some o => rfl

/-- One manage arm only appends to the worker-bound configuration log. -/
theorem manageStep_toWorker (st : MState) (e : MEvent) :
    ∃ tl, (manageStep st e).1.toWorker = st.toWorker ++ tl := by
  cases e with
  | cfg c sendOk =>
    cases sendOk
    · exact ⟨[], by simp [manageStep]⟩
    · exact ⟨[c], by simp [manageStep]⟩
  | cfgClosed => exact ⟨[], by simp [manageStep]⟩
  | statusMsg s fwdOk =>
    cases fwdOk <;> exact ⟨[], by simp [manageStep]⟩
  | statusRecvErr => exact ⟨[], by simp [manageStep]⟩
  | statusClosed => exact ⟨[], by simp [manageStep]⟩
  | childExit => exact ⟨[], by simp [manageStep]⟩

/-- The manage loop only appends to the worker-bound configuration log. -/
theorem manageRun_toWorker (evs : List MEvent) (st : MState) :
    ∃ tl, (manageRun st evs).1.toWorker = st.toWorker ++ tl := by
  induction evs generalizing st with
  | nil => exact ⟨[], by simp [manageRun]⟩
  | cons e rest ih =>
    obtain ⟨t1, h1⟩ := manageStep_toWorker st e
    simp only [manageRun]
    cases (manageStep st e).2 with
    | none =>
      obtain ⟨t2, h2⟩ := ih (manageStep st e).1
      exact ⟨t1 ++ t2, by rw [h2, h1, List.append_assoc]⟩
    | some o => exact ⟨t1, h1⟩

/-- A trace on which the loop is still running can be extended and the loop
continues from the state it reached. -/
theorem manageRun_append (evs1 : List MEvent) (st : MState) (evs2 : List MEvent)
    (h : (manageRun st evs1).2 = .running) :
    manageRun st (evs1 ++ evs2) = manageRun (manageRun st evs1).1 evs2 := by
  induction evs1 generalizing st with
  | nil => simp [manageRun]
  | cons e rest ih =>
    simp only [List.cons_append, manageRun] at h ⊢
    cases ho : (manageStep st e).2 with
    | none =>
      rw [ho] at h
      exact ih _ h
    | some o =>
      rw [ho] at h
      simp only at h
      rw [manageStep_outcome] at ho
      rw [h] at ho
      exact absurd ho (outcomeOf_ne_running e)

-- ---------------------------------------------------------------------------
-- Claim C7 (confirmed)
-- ---------------------------------------------------------------------------

/-- Claim C7: whenever a new worker generation starts managing with a
previously recorded Configuration, manage sends that Configuration to the
worker before reacting to any event (it is the head of the worker-bound
log for every event trace).  last_config is recorded before the forward
attempt, so even a generation that dies while forwarding a submitted
Configuration (forward failure), or immediately after forwarding it
(worker exit right after a successful forward), hands exactly that
Configuration to the next generation as its last_config. -/
theorem C7_theorem (c : Configuration) (last0 : Option Configuration)
    (evs1 evs2 : List MEvent)
    (hrun : (manage last0 true evs1).2 = .running) :
    (manage last0 true (evs1 ++ [MEvent.cfg c false])).2 = .err
    ∧ (manage last0 true (evs1 ++ [MEvent.cfg c false])).1.last = some c
    ∧ (manage last0 true (evs1 ++ [MEvent.cfg c true, MEvent.childExit])).2 = .err
    ∧ (manage last0 true (evs1 ++ [MEvent.cfg c true, MEvent.childExit])).1.last
      = some c
    ∧ (manage (some c) true evs2).1.toWorker.head? = some c := by
  obtain ⟨st0, hst0⟩ : ∃ st0, ∀ evs, manage last0 true evs = manageRun st0 evs := by
    cases last0 with
    | none => exact ⟨⟨none, [], []⟩, fun _ => rfl⟩
    | some c0 => exact ⟨⟨some c0, [c0], []⟩, fun _ => rfl⟩
  rw [hst0] at hrun
  have happ1 := manageRun_append evs1 st0 [MEvent.cfg c false] hrun
  have happ2 := manageRun_append evs1 st0 [MEvent.cfg c true, MEvent.childExit] hrun
  refine ⟨?_, ?_, ?_, ?_, ?_⟩
  · rw [hst0, happ1]; simp [manageRun, manageStep]
  · rw [hst0, happ1]; simp [manageRun, manageStep]
  · rw [hst0, happ2]; simp [manageRun, manageStep]
  · rw [hst0, happ2]; simp [manageRun, manageStep]
  · obtain ⟨tl, htl⟩ := manageRun_toWorker evs2 ⟨some c, [c], []⟩
    show (manageRun ⟨some c, [c], []⟩ evs2).1.toWorker.head? = some c
    rw [htl]
    rfl

/-- Claim C7 witness: a first generation with no previous configuration
whose forward of cfgA fails (and a variant that exits right after a
successful forward), followed by a second generation that replays cfgA
first. -/
theorem C7_witness :
    (manage none true [MEvent.cfg cfgA false]).2 = .err
    ∧ (manage none true [MEvent.cfg cfgA false]).1.last = some cfgA
    ∧ (manage none true [MEvent.cfg cfgA true, MEvent.childExit]).2 = .err
    ∧ (manage none true [MEvent.cfg cfgA true, MEvent.childExit]).1.last
      = some cfgA
    ∧ (manage (some cfgA) true [MEvent.statusMsg Status.NotConnected true]).1.toWorker.head?
      = some cfgA :=
  C7_theorem cfgA none [] [MEvent.statusMsg Status.NotConnected true] rfl

-- ---------------------------------------------------------------------------
-- Claim C8 (confirmed)
-- ---------------------------------------------------------------------------

/-- Claim C8: manage returns cleanly exactly when the replay send did not
fail and the first terminating event of the trace is closure of the
owner-side Configuration sink (closure is the only event whose outcome is
the clean one); on an error outcome the spawn loop starts one more worker
generation with the last_config the dead generation produced, while on a
clean outcome it stops after the current generation. -/
theorem C8_theorem (last0 : Option Configuration) (rOk : Bool) (evs : List MEvent)
    (gens : List (Bool × List MEvent)) :
    ((manage last0 rOk evs).2 = .ok
      ↔ ((last0 = none ∨ rOk = true) ∧ firstOutcome evs = .ok))
    ∧ (∀ e : MEvent, outcomeOf e = some .ok ↔ e = .cfgClosed)
    ∧ ((manage last0 rOk evs).2 = .err →
        spawnLoop last0 ((rOk, evs) :: gens)
          = ((spawnLoop (manage last0 rOk evs).1.last gens).1 + 1,
             (spawnLoop (manage last0 rOk evs).1.last gens).2))
    ∧ ((manage last0 rOk evs).2 = .ok →
        spawnLoop last0 ((rOk, evs) :: gens) = (1, (manage last0 rOk evs).1.last)) := by
  refine ⟨?_, ?_, ?_, ?_⟩
  · cases last0 with
    | none => simp [manage, manageRun_outcome]
    | some c0 => cases rOk <;> simp [manage, manageRun_outcome]
  · intro e
    cases e with
    | cfg c sendOk => cases sendOk <;> simp [outcomeOf]
    | cfgClosed => simp [outcomeOf]
    | statusMsg s fwdOk => cases fwdOk <;> simp [outcomeOf]
    | statusRecvErr => simp [outcomeOf]
    | statusClosed => simp [outcomeOf]
    | childExit => simp [outcomeOf]
  · intro h
    simp [spawnLoop, h]
  · intro h
    simp [spawnLoop, h]

/-- Claim C8 witness: a generation that ends in worker exit is followed by a
respawn (generation count increments), applied at a concrete two-generation
schedule. -/
theorem C8_witness :
    spawnLoop none [(true, [MEvent.childExit]), (true, [MEvent.cfgClosed])]
      = ((spawnLoop (manage none true [MEvent.childExit]).1.last
            [(true, [MEvent.cfgClosed])]).1 + 1,
         (spawnLoop (manage none true [MEvent.childExit]).1.last
            [(true, [MEvent.cfgClosed])]).2) :=
  (C8_theorem none true [MEvent.childExit] [(true, [MEvent.cfgClosed])]).2.2.1 rfl

-- ---------------------------------------------------------------------------
-- Read-loop lemmas
-- ---------------------------------------------------------------------------

/-- The read loop distributes over trace concatenation. -/
theorem readTrace_append (l1 l2 : List (ℕ × ℚ)) (st : ReadLoopState) :
    readTrace st (l1 ++ l2)
      = ((readTrace (readTrace st l1).1 l2).1,
         (readTrace st l1).2.1 ++ (readTrace (readTrace st l1).1 l2).2.1,
         (readTrace st l1).2.2 ++ (readTrace (readTrace st l1).1 l2).2.2) := by
  induction l1 generalizing st with
  | nil => simp [readTrace]
  | cons p rest ih =>
    obtain ⟨flex, now⟩ := p
    simp only [List.cons_append, readTrace, List.append_eq]
    rw [ih]
    simp [List.append_assoc]

/-- Readings that repeat the last acted-on value within the debounce window
are all skipped: no emission and no state change. -/
theorem readTrace_all_skip (st : ReadLoopState) (f : ℕ) (t0 : ℚ)
    (hlast : st.lastUpdate = some (f, t0)) :
    ∀ evs : List (ℕ × ℚ), (∀ p ∈ evs, p.1 = f ∧ p.2 - t0 < 1) →
      readTrace st evs = (st, [], []) := by
  intro evs hall
  induction evs with
  | nil => rfl
  | cons p rest ih =>
    obtain ⟨flex, now⟩ := p
    obtain ⟨hpf, hpt⟩ := hall _ (List.mem_cons_self _ _)
    have hpf2 : flex = f := hpf
    have hpt2 : now - t0 < 1 := hpt
    have hskip : shouldSkip st.lastUpdate flex now = true := by
      rw [hlast, hpf2]
      simp only [shouldSkip, beq_self_eq_true, Bool.true_and, decide_eq_true_eq]
      exact hpt2
    have hstep : readStep st flex now = ⟨st, [], []⟩ := by
      rw [readStep, if_pos hskip]
    simp only [readTrace, hstep]
    rw [ih fun p hp => hall p (List.mem_cons_of_mem _ hp)]
    simp

-- ---------------------------------------------------------------------------
-- Claim C9 (corrected)
-- ---------------------------------------------------------------------------

/-- Claim C9 counterexample: a valid frame repeating the last acted-on value
5 exactly 1 second after the last action is acted on by the code (the skip
test requires elapsed < 1 s), producing a Status emission — while under the
claim's reading (acted on only when the value differs or more than 1 second
has elapsed) it should have been skipped. -/
theorem C9_counterexample :
    (readStep stB 5 1).statuses = [Status.Active 5]
    ∧ ¬ ((5 : ℕ) ≠ 5 ∨ (1 : ℚ) - 0 > 1) := by
  constructor
  · have hskip : shouldSkip stB.lastUpdate 5 1 = false := by
      simp [stB, shouldSkip]
    rw [readStep, if_neg (by simp [hskip])]
    rfl
  · norm_num

/-- Claim C9 (amended): a valid frame whose sensor byte equals the last
acted-on value and which arrives strictly less than 1 second after the last
action produces no packet, no Status emission, no configuration drain and no
state change; a reading is acted on exactly when its value differs from the
last acted-on value or at least 1 second has elapsed (the source test is
strict: elapsed < 1 s skips); and an unchanged reading held across the
window produces exactly one additional emission. -/
theorem C9_theorem (st : ReadLoopState) (flex f : ℕ) (now t0 tb : ℚ)
    (evs : List (ℕ × ℚ))
    (hlast : st.lastUpdate = some (f, t0))
    (hall : ∀ p ∈ evs, p.1 = f ∧ p.2 - t0 < 1)
    (hbeat : 1 ≤ tb - t0) :
    (shouldSkip st.lastUpdate flex now = true ↔ f = flex ∧ now - t0 < 1)
    ∧ (shouldSkip st.lastUpdate flex now = true →
        readStep st flex now = ⟨st, [], []⟩)
    ∧ (shouldSkip st.lastUpdate flex now = false →
        (readStep st flex now).state.lastUpdate = some (flex, now)
        ∧ (readStep st flex now).statuses
          = [if flex = 0 then Status.NoRingCon else Status.Active flex])
    ∧ readTrace st evs = (st, [], [])
    ∧ (readTrace st (evs ++ [(f, tb)])).2.2
      = [if f = 0 then Status.NoRingCon else Status.Active f] := by
  refine ⟨?_, ?_, ?_, ?_, ?_⟩
  · rw [hlast]
    simp [shouldSkip]
  · intro h
    rw [readStep, if_pos h]
  · intro h
    rw [readStep, if_neg (by simp [h])]
    exact ⟨rfl, rfl⟩
  · exact readTrace_all_skip st f t0 hlast evs hall
  · have hskip : shouldSkip st.lastUpdate f tb = false := by
      rw [hlast]
      simp only [shouldSkip, beq_self_eq_true, Bool.true_and, decide_eq_false_iff_not]
      intro hc
      linarith
    rw [readTrace_append, readTrace_all_skip st f t0 hlast evs hall]
    simp only [readTrace, readStep, hskip, Bool.false_eq_true, if_false]
    simp

/-- Claim C9 witness: the amended claim at a concrete state (last acted-on
value 7 at time 0), a same-value reading at time 1/2 (skipped) and a
same-value heartbeat reading at time 3/2 (one emission). -/
theorem C9_witness :
    (shouldSkip stB2.lastUpdate 7 (1 / 2) = true ↔ 7 = 7 ∧ (1 / 2 : ℚ) - 0 < 1)
    ∧ (shouldSkip stB2.lastUpdate 7 (1 / 2) = true →
        readStep stB2 7 (1 / 2) = ⟨stB2, [], []⟩)
    ∧ (shouldSkip stB2.lastUpdate 7 (1 / 2) = false →
        (readStep stB2 7 (1 / 2)).state.lastUpdate = some (7, 1 / 2)
        ∧ (readStep stB2 7 (1 / 2)).statuses
          = [if 7 = 0 then Status.NoRingCon else Status.Active 7])
    ∧ readTrace stB2 [(7, 1 / 2)] = (stB2, [], [])
    ∧ (readTrace stB2 ([(7, 1 / 2)] ++ [(7, 3 / 2)])).2.2
      = [if 7 = 0 then Status.NoRingCon else Status.Active 7] :=
  C9_theorem stB2 7 7 (1 / 2) 0 (3 / 2) [(7, 1 / 2)] rfl
    (by
      intro p hp
      rw [List.mem_singleton] at hp
      subst hp
      exact ⟨rfl, by norm_num⟩)
    (by norm_num)

-- ---------------------------------------------------------------------------
-- Claim C10 (confirmed)
-- ---------------------------------------------------------------------------

/-- Claim C10: along every successful initialization of one worker
generation, the engine emits NotConnected, then Initializing of
Configuring, McuConfiguration0, McuConfiguration1, McuState, Step4, Step5,
Step6, Step7, each exactly once in that order; the emitted discriminant
sequence is 0, 2, 3, 1, 4, 5, 6, 7 — McuState has discriminant 1 but is
emitted fourth — so the numeric stage value is not monotonically
increasing. -/
theorem C10_theorem (e1 e2 e3 e4 e5 e6 e7 : List SendResult)
    (h1 : repeatSubCommand (acceptCb mcuConfiguration0Accept) e1 = some (.ok ()))
    (h2 : repeatSubCommand (acceptCb mcuConfiguration1Accept) e2 = some (.ok ()))
    (h3 : repeatSubCommand (acceptCb mcuStateAccept) e3 = some (.ok ()))
    (h4 : repeatSubCommand (acceptCb step4Accept) e4 = some (.ok ()))
    (h5 : repeatSubCommand (acceptCb step5Accept) e5 = some (.ok ()))
    (h6 : repeatSubCommand (acceptCb step6Accept) e6 = some (.ok ()))
    (h7 : repeatSubCommand (acceptCb step7Accept) e7 = some (.ok ())) :
    initTrace [e1, e2, e3, e4, e5, e6, e7]
      = Status.NotConnected ::
          ([InitializationStep.Configuring, .McuConfiguration0, .McuConfiguration1,
            .McuState, .Step4, .Step5, .Step6, .Step7].map Status.Initializing)
    ∧ (initTrace [e1, e2, e3, e4, e5, e6, e7]).Nodup
    ∧ ([InitializationStep.Configuring, .McuConfiguration0, .McuConfiguration1,
        .McuState, .Step4, .Step5, .Step6, .Step7].map InitializationStep.discriminant)
      = [0, 2, 3, 1, 4, 5, 6, 7]
    ∧ ¬ List.Sorted (· ≤ ·)
        ([InitializationStep.Configuring, .McuConfiguration0, .McuConfiguration1,
          .McuState, .Step4, .Step5, .Step6, .Step7].map InitializationStep.discriminant)
    ∧ InitializationStep.discriminant .McuState = 1 := by
  have htrace : initTrace [e1, e2, e3, e4, e5, e6, e7]
      = Status.NotConnected ::
          ([InitializationStep.Configuring, .McuConfiguration0, .McuConfiguration1,
            .McuState, .Step4, .Step5, .Step6, .Step7].map Status.Initializing) := by
    simp [initTrace, repeatStages, runStages, h1, h2, h3, h4, h5, h6, h7]
  refine ⟨htrace, ?_, by decide, by decide, rfl⟩
  rw [htrace]
  decide

/-- Claim C10 witness: the emission order on a concrete run in which every
stage succeeds on its first response. -/
theorem C10_witness :
    initTrace [[SendResult.checked mcuConf0Frame], [SendResult.checked dC5],
        [SendResult.checked mcuStateFrame], [SendResult.checked step4Frame],
        [SendResult.checked step5Frame], [SendResult.checked step6Frame],
        [SendResult.checked step7Frame]]
      = Status.NotConnected ::
          ([InitializationStep.Configuring, .McuConfiguration0, .McuConfiguration1,
            .McuState, .Step4, .Step5, .Step6, .Step7].map Status.Initializing)
    ∧ (initTrace [[SendResult.checked mcuConf0Frame], [SendResult.checked dC5],
        [SendResult.checked mcuStateFrame], [SendResult.checked step4Frame],
        [SendResult.checked step5Frame], [SendResult.checked step6Frame],
        [SendResult.checked step7Frame]]).Nodup
    ∧ ([InitializationStep.Configuring, .McuConfiguration0, .McuConfiguration1,
        .McuState, .Step4, .Step5, .Step6, .Step7].map InitializationStep.discriminant)
      = [0, 2, 3, 1, 4, 5, 6, 7]
    ∧ ¬ List.Sorted (· ≤ ·)
        ([InitializationStep.Configuring, .McuConfiguration0, .McuConfiguration1,
          .McuState, .Step4, .Step5, .Step6, .Step7].map InitializationStep.discriminant)
    ∧ InitializationStep.discriminant .McuState = 1 :=
  C10_theorem [SendResult.checked mcuConf0Frame] [SendResult.checked dC5]
    [SendResult.checked mcuStateFrame] [SendResult.checked step4Frame]
    [SendResult.checked step5Frame] [SendResult.checked step6Frame]
    [SendResult.checked step7Frame] rfl rfl rfl rfl rfl rfl rfl

end OscRingcon
